import Mathlib

/-!
Verification of the Docker-Builder backend (src/backend/app.py).

The pipeline is embedded shallowly:
  * the per-build workspace directory is an association list from file name
    to file content, wrapped in Option (none means the directory is absent);
  * external effects (the rmtree/mkdir filesystem calls, the git clone
    subprocess, the container engine) are driven by explicit outcome values
    supplied in an environment record, mirroring exactly how the Python code
    reacts to each possible outcome;
  * Python exceptions are explicit error values threaded through the steps.
Sleeping between retry attempts is not modelled (no real time in the model).
-/

/-- Contents of the per-build workspace directory: an association list from
file name (relative to the workspace root) to file content. -/
abbrev Ws := List (String × String)

/-- ASCII whitespace test used by the model of the Python str.strip method. -/
def isSpace (c : Char) : Bool :=
  c = ' ' || c = '\t' || c = '\n' || c = '\r'

/-- Trim whitespace from both ends of a character list. -/
def trimChars (cs : List Char) : List Char :=
  ((cs.dropWhile isSpace).reverse.dropWhile isSpace).reverse

/-- Model of the Python str.strip method (no arguments): trims whitespace
from both ends of the string. -/
def pyStripStr (s : String) : String :=
  String.mk (trimChars s.toList)

/-- Lower-case an ASCII letter; other characters are unchanged.  Models the
effect of the Python str.lower method on the ASCII range, which is all the
code relies on (it searches for the lower-case marker "github.io"). -/
def charToLower (c : Char) : Char :=
  if 'A' ≤ c && c ≤ 'Z' then Char.ofNat (c.toNat + 32) else c

/-- Model of the Python str.lower method. -/
def strLower (s : String) : String :=
  String.mk (s.toList.map charToLower)

/-- Does the first list start with the second one? -/
def listStartsWith : List Char → List Char → Bool
  | _, [] => true
  | [], _ :: _ => false
  | a :: as, b :: bs => a = b && listStartsWith as bs

/-- Is the second list a contiguous sublist of the first? -/
def listContainsSub : List Char → List Char → Bool
  | [], pat => pat.isEmpty
  | a :: as, pat => listStartsWith (a :: as) pat || listContainsSub as pat

/-- Model of the Python substring test (pat in s). -/
def strContains (s pat : String) : Bool :=
  listContainsSub s.toList pat.toList

/-- Model of the Python str.replace method for single-character patterns,
as used for repo_name.replace of a period by a hyphen. -/
def charReplace (s : String) (a b : Char) : String :=
  String.mk (s.toList.map (fun c => if c = a then b else c))

/-- Split a character list at the first occurrence of a character; the
separator itself is dropped.  Returns none when the character is absent. -/
def splitAtChar (c : Char) : List Char → Option (List Char × List Char)
  | [] => none
  | a :: as =>
    if a = c then some ([], as)
    else
      match splitAtChar c as with
      | none => none
      | some (l, r) => some (a :: l, r)

/-- Take the longest prefix not containing any of the stop characters;
return it together with the rest of the list. -/
def breakAtAny (stops : List Char) : List Char → List Char × List Char
  | [] => ([], [])
  | a :: as =>
    if stops.contains a then ([], a :: as)
    else
      let p := breakAtAny stops as
      (a :: p.1, p.2)

/-- Characters allowed in a URL scheme after the leading letter. -/
def isSchemeChar (c : Char) : Bool :=
  c.isAlpha || c.isDigit || c = '+' || c = '-' || c = '.'

/-- Split off the URL scheme, as urllib.parse.urlparse does: the part before
the first colon is a scheme when it is nonempty, starts with a letter and
consists of scheme characters; the scheme is lower-cased.  Otherwise the
scheme is empty and the whole input is the remainder. -/
def splitScheme (cs : List Char) : List Char × List Char :=
  match splitAtChar ':' cs with
  | none => ([], cs)
  | some (pre, post) =>
    match pre with
    | [] => ([], cs)
    | c0 :: rest =>
      if c0.isAlpha && (c0 :: rest).all isSchemeChar then (pre.map charToLower, post)
      else ([], cs)

/-- Result of parsing a URL: the components the code reads. -/
structure UrlParts where
  scheme : String
  netloc : String
  path : String
deriving Repr, DecidableEq

/-- Model of urllib.parse.urlparse restricted to the components the code
uses: scheme, netloc (present only after a double slash, ending at the first
slash, question mark or hash) and path (ending at the first question mark or
hash). -/
def urlparse (s : String) : UrlParts :=
  let cs := s.toList
  let p1 := splitScheme cs
  let p2 :=
    match p1.2 with
    | '/' :: '/' :: r => breakAtAny ['/', '?', '#'] r
    | r => (([] : List Char), r)
  let p3 := breakAtAny ['?', '#'] p2.2
  ⟨String.mk p1.1, String.mk p2.1, String.mk p3.1⟩

/-- Split a character list on every occurrence of a separator character
(helper with an accumulator for the current piece, kept in reverse). -/
def splitAux (c : Char) : List Char → List Char → List (List Char)
  | [], acc => [acc.reverse]
  | a :: as, acc =>
    if a = c then acc.reverse :: splitAux c as [] else splitAux c as (a :: acc)

/-- Last nonempty piece of a list of pieces, or the empty list. -/
def lastNonempty (ls : List (List Char)) : List Char :=
  ((ls.filter (fun l => !l.isEmpty)).getLast?).getD []

/-- Final component of a slash-separated path, as pathlib.Path exposes it
(empty components, including a trailing slash, are dropped). -/
def pathName (path : List Char) : List Char :=
  lastNonempty (splitAux '/' path [])

/-- Index of the last period in a character list, if any. -/
def lastDotIdx : List Char → Option Nat
  | [] => none
  | a :: as =>
    match lastDotIdx as with
    | some j => some (j + 1)
    | none => if a = '.' then some 0 else none

/-- Strip the final suffix from a file name, following the pathlib rule:
the suffix starts at the last period when that period is neither the first
nor the last character. -/
def stemChars (name : List Char) : List Char :=
  match lastDotIdx name with
  | none => name
  | some i => if 0 < i && i + 1 < name.length then name.take i else name

/-- Model of pathlib.Path(path).stem: the final path component without its
last suffix. -/
def pathStem (path : String) : String :=
  String.mk (stemChars (pathName path.toList))

/-- Python exception values the pipeline can raise, with the message that
str(e) yields.  engineError stands for any exception raised by the engine
client that the code does not classify (not a BuildError, not an APIError). -/
inductive PyErr
  | valueError (msg : String)
  | runtimeError (msg : String)
  | attributeError (msg : String)
  | engineError (msg : String)
deriving Repr, DecidableEq

/-- Model of str(e) on an exception value. -/
def pyStr : PyErr → String
  | .valueError m => m
  | .runtimeError m => m
  | .attributeError m => m
  | .engineError m => m

/-- JSON-like values of a request body. -/
inductive JVal
  | jStr (s : String)
  | jNum (n : Int)
  | jBool (b : Bool)
  | jNull
  | jObj (fields : List (String × JVal))

/-- Is the value a JSON string? -/
def JVal.isStr : JVal → Bool
  | .jStr _ => true
  | _ => false

/-- An incoming HTTP request to the build endpoint: whether the body is
JSON, and the decoded body value. -/
structure Request where
  isJson : Bool
  body : JVal

/-- Model of data.get(key, dflt): succeeds on a JSON object, raises an
AttributeError on any other value. -/
def dictGet (data : JVal) (key : String) (dflt : JVal) : Except PyErr JVal :=
  match data with
  | .jObj fields => .ok ((fields.lookup key).getD dflt)
  | _ => .error (.attributeError "object has no attribute get")

/-- Model of value.strip(): succeeds on a string, raises an AttributeError
on any other value. -/
def pyStrip : JVal → Except PyErr String
  | .jStr s => .ok (pyStripStr s)
  | _ => .error (.attributeError "object has no attribute strip")

/-- Project types the detector can return. -/
inductive ProjectType
  | node
  | static
  | default
deriving Repr, DecidableEq

/-- The literal Dockerfile templates of the source, keyed by project type. -/
def DOCKERFILE_TEMPLATES : ProjectType → String
  | .static => "FROM nginx:alpine\nCOPY . /usr/share/nginx/html\nEXPOSE 80\nCMD [\"nginx\", \"-g\", \"daemon off;\"]"
  | .node => "FROM node:16-alpine\nWORKDIR /app\nCOPY package*.json ./\nRUN npm install\nCOPY . .\nCMD [\"npm\", \"start\"]"
  | .default => "FROM alpine\nCOPY . /app\nWORKDIR /app\nCMD [\"ls\", \"-la\"]"

/-- Does the workspace contain a file of the given name? -/
def hasFile (w : Ws) (name : String) : Bool :=
  (w.lookup name).isSome

/-- Write a file into the workspace, replacing any previous file of the same
name (open with mode w truncates). -/
def writeFile (w : Ws) (name content : String) : Ws :=
  (name, content) :: w.eraseP (fun p => p.1 == name)

/-- Source detect_project_type: package.json means node, else index.html
means static, else default. -/
def detect_project_type (w : Ws) : ProjectType :=
  if hasFile w "package.json" then .node
  else if hasFile w "index.html" then .static
  else .default

/-- Outcome of one clean attempt as the filesystem reports it: whether the
rmtree call actually removed the tree (with ignore_errors set, a failed
removal is silent), and whether the mkdir call succeeded (a failed mkdir
raises). -/
structure AttemptOutcome where
  rmOk : Bool
  mkOk : Bool
deriving Repr, DecidableEq

/-- One iteration of the clean loop on the directory state: rmtree with
ignore_errors when the directory exists, then mkdir with parents and
exist_ok.  Returns the new state and whether the attempt succeeded (mkdir
did not raise). -/
def cleanAttempt (o : AttemptOutcome) (fs : Option Ws) : Option Ws × Bool :=
  let fs1 : Option Ws :=
    match fs with
    | some w => if o.rmOk then none else some w
    | none => none
  if o.mkOk then (some (fs1.getD []), true) else (fs1, false)

/-- Run the clean attempts in order until one succeeds; reports failure when
every attempt raised. -/
def cleanAttempts : List AttemptOutcome → Option Ws → Option Ws × Bool
  | [], fs => (fs, false)
  | o :: os, fs =>
    match cleanAttempt o fs with
    | (fs1, true) => (fs1, true)
    | (fs1, false) => cleanAttempts os fs1

/-- The error message clean_build_dir raises after exhausting its attempts. -/
def cleanFailMsg (build_dir : String) : String :=
  "Failed to clean build directory after 3 attempts: " ++ build_dir

/-- Source clean_build_dir: three attempts of rmtree-then-mkdir; raises a
RuntimeError naming the directory when all three attempts fail.  The
1-second sleep between attempts is not modelled. -/
def clean_build_dir (oracle : Nat → AttemptOutcome) (build_dir : String)
    (fs : Option Ws) : Option Ws × Option PyErr :=
  match cleanAttempts [oracle 0, oracle 1, oracle 2] fs with
  | (fs1, true) => (fs1, none)
  | (fs1, false) => (fs1, some (.runtimeError (cleanFailMsg build_dir)))

/-- Outcome of the git clone subprocess: the cloned working tree, or a
nonzero exit with the text the process wrote to stderr. -/
inductive CloneOutcome
  | ok (files : Ws)
  | fail (stderr : String)
deriving Repr, DecidableEq

/-- Source clone_repository: on success the destination holds the cloned
tree; on a nonzero exit the stripped stderr text is classified into a
repository-not-found error, an authentication error, or a generic clone
failure carrying the raw diagnostic text. -/
def clone_repository (outcome : CloneOutcome) : Except PyErr Ws :=
  match outcome with
  | .ok files => .ok files
  | .fail stderr =>
    let error_msg := pyStripStr stderr
    if strContains error_msg "Repository not found" then
      .error (.valueError "Repository not found or private (needs access token)")
    else if strContains error_msg "could not read Username" then
      .error (.valueError "Authentication failed - use HTTPS with token")
    else
      .error (.runtimeError ("Git clone failed: " ++ error_msg))

/-- Outcome of the engine build call: the streamed events (each either a
stream event carrying text, or some other kind of event), or one of the two
classified engine exceptions, or an unclassified exception. -/
inductive EngineOutcome
  | ok (events : List (Option String))
  | buildError (msg : String)
  | apiError (msg : String)
  | raisesOther (msg : String)
deriving Repr, DecidableEq

/-- The stream lines of the engine output: keep stream events only, strip
whitespace, drop lines that are empty after stripping. -/
def streamLines (events : List (Option String)) : List String :=
  events.filterMap fun e =>
    match e with
    | none => none
    | some s =>
      let t := pyStripStr s
      if t = "" then none else some t

/-- The final n elements of a list, in order (the Python slice of the last
n elements). -/
def lastN (n : Nat) (l : List String) : List String :=
  l.drop (l.length - n)

deriving instance DecidableEq for Except

/-- Result of the build_docker_image step: the workspace contents after the
step, the returned tag and log tail or the raised exception, whether the
engine build call was reached, and the workspace contents passed to it. -/
structure BuildStepResult where
  ws : Ws
  result : Except PyErr (String × List String)
  engineCalled : Bool
  engineWs : Option Ws
deriving Repr, DecidableEq

/-- Source build_docker_image: fail at once when the engine client is
unavailable; otherwise generate a Dockerfile from the detected project type
when none exists, invoke the engine build, and either return the tag with
the filtered log tail or classify the engine exception (BuildError and
APIError are wrapped; any other exception propagates unchanged). -/
def build_docker_image (clientAvailable : Bool) (engine : EngineOutcome)
    (build_dir_files : Ws) (repo_name : String) : BuildStepResult :=
  if clientAvailable = false then
    ⟨build_dir_files, .error (.runtimeError "Docker service unavailable"), false, none⟩
  else
    let ws :=
      if hasFile build_dir_files "Dockerfile" then build_dir_files
      else
        writeFile build_dir_files "Dockerfile"
          (DOCKERFILE_TEMPLATES (detect_project_type build_dir_files))
    match engine with
    | .ok events =>
      let tag := "builder/" ++ charReplace repo_name '.' '-' ++ ":latest"
      ⟨ws, .ok (tag, lastN 20 (streamLines events)), true, some ws⟩
    | .buildError msg =>
      ⟨ws, .error (.runtimeError ("Docker build failed: " ++ msg)), true, some ws⟩
    | .apiError _ =>
      ⟨ws, .error (.runtimeError "Docker service error"), true, some ws⟩
    | .raisesOther msg =>
      ⟨ws, .error (.engineError msg), true, some ws⟩

/-- The JSON responses the endpoint produces: a success body (status 200)
with image tag, log tail and suggested run command, or a failure with an
HTTP status and an error string. -/
inductive Response
  | success (image : String) (logs : List String) (runCommand : String)
  | failure (status : Nat) (error : String)
deriving Repr, DecidableEq

/-- What the HTTP layer sees from the endpoint: a returned response, or an
exception that escaped the endpoint function to the framework. -/
inductive HttpResult
  | resp (r : Response)
  | uncaught (e : PyErr)
deriving Repr, DecidableEq

/-- Which steps of the pipeline ran during one request, the workspace
contents at the engine call, and how many times the cleanup block of the
try-finally executed. -/
structure Trace where
  cleanCalled : Bool
  cloneCalled : Bool
  buildFnCalled : Bool
  engineCalled : Bool
  engineWs : Option Ws
  finallyRuns : Nat
deriving Repr, DecidableEq

/-- Trace of a request in which no pipeline step ran. -/
def emptyTrace : Trace :=
  ⟨false, false, false, false, none, 0⟩

/-- Everything observable about one request: the HTTP-level result, the
final on-disk state of the build directory, and the step trace. -/
structure BuildCall where
  result : HttpResult
  fs : Option Ws
  trace : Trace
deriving Repr, DecidableEq

/-- The external world one request runs against: whether the engine client
was established at startup, the filesystem outcomes of the clean attempts,
the clone outcome, the engine outcome, and whether the final cleanup rmtree
actually removes the tree (with ignore_errors a failure is silent). -/
structure Env where
  clientAvailable : Bool
  cleanOutcome : Nat → AttemptOutcome
  cloneOutcome : CloneOutcome
  engineOutcome : EngineOutcome
  teardownRmOk : Bool

/-- Assemble the observable outcome of the image-build step: a success
response with tag, log tail and the literal suggested run command with the
fixed 8080 to 80 port mapping, or the propagated exception; either way the
directory now holds the contents the step left behind. -/
def assembleBuild (b : BuildStepResult) : Except PyErr Response × Option Ws × Trace :=
  let t : Trace := ⟨true, true, true, b.engineCalled, b.engineWs, 0⟩
  match b.result with
  | .ok tagLogs =>
    (.ok (Response.success tagLogs.1 tagLogs.2
      ("docker run -p 8080:80 " ++ tagLogs.1)), some b.ws, t)
  | .error e => (.error e, some b.ws, t)

/-- The body of the inner try of the endpoint (workspace prepare, clone,
the github.io special case, image build), before the except and finally
clauses: the response or pipeline exception, the directory state, and the
step trace. -/
def pipelineResult (clientAvailable : Bool) (cleanOutcome : Nat → AttemptOutcome)
    (cloneOutcome : CloneOutcome) (engineOutcome : EngineOutcome)
    (repo_url repo_name build_dir : String) (fs0 : Option Ws) :
    Except PyErr Response × Option Ws × Trace :=
  match clean_build_dir cleanOutcome build_dir fs0 with
  | (fs1, some e) => (.error e, fs1, ⟨true, false, false, false, none, 0⟩)
  | (fs1, none) =>
    match clone_repository cloneOutcome with
    | .error e => (.error e, fs1, ⟨true, true, false, false, none, 0⟩)
    | .ok files =>
      let w1 :=
        if strContains (strLower repo_url) "github.io" && !hasFile files "Dockerfile" then
          writeFile files "Dockerfile" (DOCKERFILE_TEMPLATES ProjectType.static)
        else files
      assembleBuild (build_docker_image clientAvailable engineOutcome w1 repo_name)

/-- The except clause at the pipeline boundary: a pipeline exception becomes
a 500 response carrying str(e). -/
def respOf : Except PyErr Response → Response
  | .ok r => r
  | .error e => .failure 500 (pyStr e)

/-- The finally clause: rmtree with ignore_errors when the directory exists;
the rmOk flag says whether the removal actually happened. -/
def teardownStep (rmOk : Bool) (fs : Option Ws) : Option Ws :=
  match fs with
  | some w => if rmOk then none else some w
  | none => none

/-- Wrap a pipeline result with the except and finally clauses. -/
def mkBuildCall (r : Except PyErr Response × Option Ws × Trace) (rmOk : Bool) :
    BuildCall :=
  ⟨HttpResult.resp (respOf r.1), teardownStep rmOk r.2.1,
    ⟨r.2.2.cleanCalled, r.2.2.cloneCalled, r.2.2.buildFnCalled,
      r.2.2.engineCalled, r.2.2.engineWs, r.2.2.finallyRuns + 1⟩⟩

/-- The inner try-except-finally of the endpoint, from workspace prepare to
cleanup. -/
def pipelineAndCleanup (env : Env) (repo_url repo_name build_dir : String)
    (fs0 : Option Ws) : BuildCall :=
  mkBuildCall
    (pipelineResult env.clientAvailable env.cleanOutcome env.cloneOutcome
      env.engineOutcome repo_url repo_name build_dir fs0)
    env.teardownRmOk

/-- Source build_image, the POST /build endpoint: reject non-JSON bodies,
read and strip repo_url (on a non-string value the AttributeError escapes
the endpoint, since the outer try has not started yet), reject an empty or
unparsable URL with a 400, derive the workspace name from the URL path stem
with the unnamed fallback, and run the pipeline with its except and finally
clauses.  The outer except clause would turn an exception raised after URL
validation into a generic 500; in the model no such exception exists, since
the pipeline block catches every pipeline exception itself. -/
def build_image (env : Env) (req : Request) (fs0 : Option Ws) : BuildCall :=
  if req.isJson = false then
    ⟨.resp (.failure 400 "Request must be JSON"), fs0, emptyTrace⟩
  else
    match dictGet req.body "repo_url" (JVal.jStr "") with
    | .error e => ⟨.uncaught e, fs0, emptyTrace⟩
    | .ok v =>
      match pyStrip v with
      | .error e => ⟨.uncaught e, fs0, emptyTrace⟩
      | .ok repo_url =>
        if repo_url = "" then
          ⟨.resp (.failure 400 "Missing repo_url"), fs0, emptyTrace⟩
        else
          let parsed := urlparse repo_url
          if parsed.scheme = "" ∨ parsed.netloc = "" then
            ⟨.resp (.failure 400 "Invalid repository URL"), fs0, emptyTrace⟩
          else
            let repo_name :=
              if pathStem parsed.path = "" then "unnamed" else pathStem parsed.path
            let build_dir := "/tmp/builds/" ++ repo_name
            pipelineAndCleanup env repo_url repo_name build_dir fs0

/-- The workspace name the endpoint derives from a repository URL: the path
stem with the unnamed fallback. -/
def nameOf (repo_url : String) : String :=
  if pathStem (urlparse repo_url).path = "" then "unnamed"
  else pathStem (urlparse repo_url).path

/-- A clean-attempt oracle on which every filesystem call succeeds. -/
def oracleOk : Nat → AttemptOutcome :=
  fun _ => ⟨true, true⟩

/-- A clean-attempt oracle on which every rmtree call silently fails but
every mkdir call succeeds. -/
def oracleRmFail : Nat → AttemptOutcome :=
  fun _ => ⟨false, true⟩

/-- A clean-attempt oracle on which every mkdir call raises. -/
def oracleMkFail : Nat → AttemptOutcome :=
  fun _ => ⟨true, false⟩

/-- A well-formed request carrying an ordinary repository URL. -/
def reqStd : Request :=
  ⟨true, .jObj [("repo_url", .jStr "https://github.com/user/repo.git")]⟩

/-- A well-formed request whose repository URL contains the github.io
static-hosting marker. -/
def reqPages : Request :=
  ⟨true, .jObj [("repo_url", .jStr "https://github.com/user/my-site.github.io")]⟩

/-- A request whose repo_url field is a number instead of a string. -/
def reqNumUrl : Request :=
  ⟨true, .jObj [("repo_url", .jNum 5)]⟩

/-- Engine events of a quiet successful build: two text lines around a
non-stream event and a whitespace-only line. -/
def eventsStd : List (Option String) :=
  [some "Step 1/2 : FROM nginx\n", none, some "  \n", some "Successfully built abc\n"]

/-- World for claim C1: the engine client is unavailable, everything else
succeeds. -/
def envC1 : Env :=
  ⟨false, oracleOk, .ok [("index.html", "x")], .ok eventsStd, true⟩

/-- World for claim C2: the engine call raises an exception the code does
not classify, whose message holds internal diagnostic detail. -/
def envC2 : Env :=
  ⟨true, oracleOk, .ok [], .raisesOther "Traceback: connection reset on /var/run/docker.sock", true⟩

/-- World for claim C3: a fully successful build whose final cleanup rmtree
silently fails. -/
def envC3 : Env :=
  ⟨true, oracleOk, .ok [("index.html", "x")], .ok eventsStd, false⟩

/-- World for claim C4: the cloned repository ships its own Dockerfile next
to a node manifest. -/
def envC4 : Env :=
  ⟨true, oracleOk, .ok [("Dockerfile", "FROM scratch"), ("package.json", "x")], .ok eventsStd, true⟩

/-- World for claim C5: every mkdir call raises, so workspace prepare
exhausts its attempts. -/
def envC5 : Env :=
  ⟨true, oracleMkFail, .ok [], .ok eventsStd, true⟩

/-- World for claim C6: the clone exits nonzero with the not-found marker
on stderr. -/
def envC6 : Env :=
  ⟨true, oracleOk, .fail "remote: Repository not found.\nfatal: could not read from remote\n", .ok eventsStd, true⟩

/-- World for claim C7: the cloned tree has a node manifest and no
Dockerfile, so generic detection alone would pick the node template. -/
def envC7 : Env :=
  ⟨true, oracleOk, .ok [("package.json", "x")], .ok eventsStd, true⟩

/-- World for claim C8: a successful build with everything working. -/
def envC8 : Env :=
  ⟨true, oracleOk, .ok [("index.html", "x")], .ok eventsStd, true⟩

/-- World for claims C9 and C10: every external call would succeed, so any
absence of pipeline work is due to the endpoint itself. -/
def envC9 : Env :=
  ⟨true, oracleOk, .ok [("index.html", "x")], .ok eventsStd, true⟩

/-! Helper lemmas about the model. -/

theorem lookup_writeFile (w : Ws) (n c : String) :
    (writeFile w n c).lookup n = some c := by
  simp [writeFile, List.lookup]

theorem hasFile_of_lookup (w : Ws) (n c : String) (h : w.lookup n = some c) :
    hasFile w n = true := by
  simp [hasFile, h]

theorem hasFile_false_of_lookup (w : Ws) (n : String) (h : w.lookup n = none) :
    hasFile w n = false := by
  simp [hasFile, h]

theorem lastN_length_le (n : Nat) (l : List String) : (lastN n l).length ≤ n := by
  simp [lastN]
  omega

theorem mem_of_mem_lastN (x : String) (n : Nat) (l : List String)
    (h : x ∈ lastN n l) : x ∈ l :=
  List.mem_of_mem_drop h

theorem mem_streamLines_ne_empty (x : String) (events : List (Option String))
    (h : x ∈ streamLines events) : x ≠ "" := by
  simp only [streamLines, List.mem_filterMap] at h
  obtain ⟨a, _, ha⟩ := h
  cases a with
  | none => simp at ha
  | some s =>
    by_cases ht : pyStripStr s = "" <;> simp [ht] at ha
    rw [← ha]
    exact ht

theorem cleanAttempt_true (o : AttemptOutcome) (fs fsa : Option Ws)
    (h : cleanAttempt o fs = (fsa, true)) :
    o.mkOk = true ∧ ∃ w, fsa = some w := by
  unfold cleanAttempt at h
  by_cases hm : o.mkOk = true
  · rw [if_pos hm] at h
    refine ⟨hm, ?_⟩
    cases h
    exact ⟨_, rfl⟩
  · simp only [Bool.not_eq_true] at hm
    rw [hm] at h
    simp at h

theorem cleanAttempt_false (o : AttemptOutcome) (fs fsa : Option Ws)
    (h : cleanAttempt o fs = (fsa, false)) : o.mkOk = false := by
  unfold cleanAttempt at h
  by_cases hm : o.mkOk = true
  · rw [if_pos hm] at h
    simp at h
  · simp only [Bool.not_eq_true] at hm
    exact hm

theorem cleanAttempts_isSome (os : List AttemptOutcome) (fs fs1 : Option Ws)
    (h : cleanAttempts os fs = (fs1, true)) : fs1.isSome = true := by
  induction os generalizing fs with
  | nil => simp [cleanAttempts] at h
  | cons o os ih =>
    rw [cleanAttempts] at h
    rcases ha : cleanAttempt o fs with ⟨fsa, b⟩
    rw [ha] at h
    cases b with
    | true =>
      have h2 : fsa = fs1 := by
        have := congrArg Prod.fst h
        simpa using this
      obtain ⟨_, w, hw⟩ := cleanAttempt_true o fs fsa ha
      rw [← h2, hw]
      rfl
    | false => exact ih fsa h

theorem cleanAttempt_rmOk (o : AttemptOutcome) (fs : Option Ws)
    (hr : o.rmOk = true) :
    cleanAttempt o fs = (if o.mkOk then (some [], true) else (none, false)) := by
  cases fs <;> by_cases hm : o.mkOk = true <;> simp_all [cleanAttempt]

theorem cleanAttempts_rmOk (os : List AttemptOutcome) (fs fs1 : Option Ws)
    (hr : ∀ o ∈ os, o.rmOk = true)
    (h : cleanAttempts os fs = (fs1, true)) : fs1 = some [] := by
  induction os generalizing fs with
  | nil => simp [cleanAttempts] at h
  | cons o os ih =>
    rw [cleanAttempts] at h
    rw [cleanAttempt_rmOk o fs (hr o (by simp))] at h
    by_cases hm : o.mkOk = true
    · rw [if_pos hm] at h
      have := congrArg Prod.fst h
      simpa using this.symm
    · simp only [Bool.not_eq_true] at hm
      rw [hm] at h
      simp only [Bool.false_eq_true, if_false] at h
      exact ih none (fun x hx => hr x (List.mem_cons_of_mem o hx)) h

theorem cleanAttempts_allMkFail (os : List AttemptOutcome) (fs : Option Ws)
    (hm : ∀ o ∈ os, o.mkOk = false) : (cleanAttempts os fs).2 = false := by
  induction os generalizing fs with
  | nil => simp [cleanAttempts]
  | cons o os ih =>
    rw [cleanAttempts]
    rcases ha : cleanAttempt o fs with ⟨fsa, b⟩
    cases b with
    | true =>
      obtain ⟨hmk, _⟩ := cleanAttempt_true o fs fsa ha
      rw [hm o (by simp)] at hmk
      simp at hmk
    | false => exact ih fsa (fun x hx => hm x (List.mem_cons_of_mem o hx))

/-! Definitional projections of the pipeline wrapper. -/

theorem pac_result (env : Env) (u n d : String) (fs0 : Option Ws) :
    (pipelineAndCleanup env u n d fs0).result
      = .resp (respOf (pipelineResult env.clientAvailable env.cleanOutcome
          env.cloneOutcome env.engineOutcome u n d fs0).1) := rfl

theorem pac_fs (env : Env) (u n d : String) (fs0 : Option Ws) :
    (pipelineAndCleanup env u n d fs0).fs
      = teardownStep env.teardownRmOk (pipelineResult env.clientAvailable
          env.cleanOutcome env.cloneOutcome env.engineOutcome u n d fs0).2.1 := rfl

theorem pac_trace (env : Env) (u n d : String) (fs0 : Option Ws) :
    (pipelineAndCleanup env u n d fs0).trace
      = (fun t : Trace => ⟨t.cleanCalled, t.cloneCalled, t.buildFnCalled,
          t.engineCalled, t.engineWs, t.finallyRuns + 1⟩)
        (pipelineResult env.clientAvailable env.cleanOutcome env.cloneOutcome
          env.engineOutcome u n d fs0).2.2 := rfl

/-! Case analysis of the endpoint: every request either exits before the
pipeline with an unchanged directory and an empty trace, or runs the
pipeline on the stripped URL. -/

theorem build_image_cases (env : Env) (req : Request) (fs0 : Option Ws) :
    (build_image env req fs0 = ⟨.resp (.failure 400 "Request must be JSON"), fs0, emptyTrace⟩) ∨
    (∃ e, build_image env req fs0 = ⟨.uncaught e, fs0, emptyTrace⟩) ∨
    (build_image env req fs0 = ⟨.resp (.failure 400 "Missing repo_url"), fs0, emptyTrace⟩) ∨
    (build_image env req fs0 = ⟨.resp (.failure 400 "Invalid repository URL"), fs0, emptyTrace⟩) ∨
    (∃ v u, dictGet req.body "repo_url" (JVal.jStr "") = .ok v ∧ pyStrip v = .ok u ∧
      build_image env req fs0 = pipelineAndCleanup env u (nameOf u) ("/tmp/builds/" ++ nameOf u) fs0) := by
  unfold build_image
  cases hj : req.isJson
  · left; simp
  · simp only [Bool.true_eq_false, if_false]
    rcases hg : dictGet req.body "repo_url" (JVal.jStr "") with e | v <;> dsimp only
    · right; left; exact ⟨e, rfl⟩
    · rcases hs : pyStrip v with e | repo_url <;> dsimp only
      · right; left; exact ⟨e, rfl⟩
      · by_cases hu : repo_url = ""
        · rw [if_pos hu]
          right; right; left; rfl
        · rw [if_neg hu]
          by_cases hv : (urlparse repo_url).scheme = "" ∨ (urlparse repo_url).netloc = ""
          · rw [if_pos hv]
            right; right; right; left; rfl
          · rw [if_neg hv]
            right; right; right; right
            exact ⟨v, repo_url, rfl, hs, rfl⟩

/-! Facts about the assembled build-step outcome. -/

theorem assembleBuild_trace (b : BuildStepResult) :
    (assembleBuild b).2.2 = ⟨true, true, true, b.engineCalled, b.engineWs, 0⟩ := by
  unfold assembleBuild
  rcases hb : b.result with e | tagLogs <;> rfl

theorem assembleBuild_fs (b : BuildStepResult) :
    (assembleBuild b).2.1 = some b.ws := by
  unfold assembleBuild
  rcases hb : b.result with e | tagLogs <;> rfl

theorem assembleBuild_error (b : BuildStepResult) (e : PyErr)
    (h : b.result = .error e) : (assembleBuild b).1 = .error e := by
  unfold assembleBuild
  rw [h]

theorem assembleBuild_ok (b : BuildStepResult) (tag : String) (logs : List String)
    (h : b.result = .ok (tag, logs)) :
    (assembleBuild b).1
      = .ok (.success tag logs ("docker run -p 8080:80 " ++ tag)) := by
  unfold assembleBuild
  rw [h]

theorem assembleBuild_success (b : BuildStepResult) (r : Response)
    (h : (assembleBuild b).1 = .ok r) :
    ∃ tagLogs, b.result = .ok tagLogs ∧
      r = .success tagLogs.1 tagLogs.2 ("docker run -p 8080:80 " ++ tagLogs.1) := by
  unfold assembleBuild at h
  rcases hb : b.result with e | tagLogs <;> rw [hb] at h
  · simp at h
  · simp at h
    exact ⟨tagLogs, rfl, h.symm⟩

/-! Pipeline-level lemmas, one per aspect the claims need. -/

theorem pipelineResult_engine_unavailable (co : Nat → AttemptOutcome)
    (cl : CloneOutcome) (eo : EngineOutcome) (u n d : String) (fs0 : Option Ws) :
    (pipelineResult false co cl eo u n d fs0).2.2.engineCalled = false ∧
    ((pipelineResult false co cl eo u n d fs0).2.2.buildFnCalled = true →
      (pipelineResult false co cl eo u n d fs0).1
        = .error (.runtimeError "Docker service unavailable")) := by
  unfold pipelineResult
  rcases h1 : clean_build_dir co d fs0 with ⟨fs1, e1⟩
  cases e1 with
  | some e => simp
  | none =>
    rcases h2 : clone_repository cl with e | files <;> dsimp only
    · simp
    · simp only [build_docker_image, Bool.false_eq_true, if_pos]
      refine ⟨?_, fun _ => ?_⟩
      · rw [assembleBuild_trace]
      · exact assembleBuild_error _ _ rfl

theorem pipelineResult_engine_raises (ca : Bool) (co : Nat → AttemptOutcome)
    (cl : CloneOutcome) (msg : String) (u n d : String) (fs0 : Option Ws) :
    (pipelineResult ca co cl (.raisesOther msg) u n d fs0).2.2.engineCalled = true →
    (pipelineResult ca co cl (.raisesOther msg) u n d fs0).1 = .error (.engineError msg) := by
  unfold pipelineResult
  rcases h1 : clean_build_dir co d fs0 with ⟨fs1, e1⟩
  cases e1 with
  | some e => simp
  | none =>
    rcases h2 : clone_repository cl with e | files <;> dsimp only
    · simp
    · cases ca <;> simp only [build_docker_image] <;> intro h
      · rw [assembleBuild_trace] at h
        simp at h
      · exact assembleBuild_error _ _ rfl

theorem pipelineResult_finallyRuns (ca : Bool) (co : Nat → AttemptOutcome)
    (cl : CloneOutcome) (eo : EngineOutcome) (u n d : String) (fs0 : Option Ws) :
    (pipelineResult ca co cl eo u n d fs0).2.2.finallyRuns = 0 := by
  unfold pipelineResult
  split
  · rfl
  · split
    · rfl
    · simp [assembleBuild_trace]

theorem teardownStep_rmOk (fs : Option Ws) : teardownStep true fs = none := by
  cases fs <;> simp [teardownStep]

theorem teardownStep_rmFail (fs : Option Ws) : teardownStep false fs = fs := by
  cases fs <;> simp [teardownStep]

theorem pipelineResult_cleanCalled (ca : Bool) (co : Nat → AttemptOutcome)
    (cl : CloneOutcome) (eo : EngineOutcome) (u n d : String) (fs0 : Option Ws) :
    (pipelineResult ca co cl eo u n d fs0).2.2.cleanCalled = true := by
  unfold pipelineResult
  split
  · rfl
  · split
    · rfl
    · simp [assembleBuild_trace]

theorem pipelineResult_clean_fail (ca : Bool) (co : Nat → AttemptOutcome)
    (cl : CloneOutcome) (eo : EngineOutcome) (u n d : String) (fs0 : Option Ws)
    (e : PyErr) (h : (clean_build_dir co d fs0).2 = some e) :
    (pipelineResult ca co cl eo u n d fs0).1 = .error e ∧
    (pipelineResult ca co cl eo u n d fs0).2.2.cloneCalled = false ∧
    (pipelineResult ca co cl eo u n d fs0).2.2.engineCalled = false := by
  unfold pipelineResult
  rcases h1 : clean_build_dir co d fs0 with ⟨fs1, e1⟩
  rw [h1] at h
  cases e1 with
  | some e2 =>
    simp at h
    subst h
    exact ⟨rfl, rfl, rfl⟩
  | none => simp at h

theorem pipelineResult_cloneCalled_clean (ca : Bool) (co : Nat → AttemptOutcome)
    (cl : CloneOutcome) (eo : EngineOutcome) (u n d : String) (fs0 : Option Ws)
    (h : (pipelineResult ca co cl eo u n d fs0).2.2.cloneCalled = true) :
    (clean_build_dir co d fs0).2 = none := by
  unfold pipelineResult at h
  rcases h1 : clean_build_dir co d fs0 with ⟨fs1, e1⟩
  cases e1 with
  | some e =>
    rw [h1] at h
    simp at h
  | none => rfl

theorem pipelineResult_clone_error (ca : Bool) (co : Nat → AttemptOutcome)
    (cl : CloneOutcome) (eo : EngineOutcome) (u n d : String) (fs0 : Option Ws)
    (e : PyErr) (hc : (clean_build_dir co d fs0).2 = none)
    (h : clone_repository cl = .error e) :
    (pipelineResult ca co cl eo u n d fs0).1 = .error e := by
  unfold pipelineResult
  rcases h1 : clean_build_dir co d fs0 with ⟨fs1, e1⟩
  rw [h1] at hc
  simp at hc
  subst hc
  rw [h]

theorem pipelineResult_dockerfile_preserved (ca : Bool) (co : Nat → AttemptOutcome)
    (cl : CloneOutcome) (eo : EngineOutcome) (u n d : String) (fs0 : Option Ws)
    (files w : Ws) (c : String)
    (hcl : clone_repository cl = .ok files)
    (hdf : files.lookup "Dockerfile" = some c)
    (hw : (pipelineResult ca co cl eo u n d fs0).2.2.engineWs = some w) :
    w.lookup "Dockerfile" = some c := by
  unfold pipelineResult at hw
  rcases h1 : clean_build_dir co d fs0 with ⟨fs1, e1⟩
  rw [h1] at hw
  cases e1 with
  | some e => simp at hw
  | none =>
    rw [hcl] at hw
    have hff : hasFile files "Dockerfile" = true := hasFile_of_lookup _ _ _ hdf
    simp only [hff, Bool.not_true, Bool.and_false, Bool.false_eq_true, if_false] at hw
    rw [assembleBuild_trace] at hw
    cases ca with
    | false => simp [build_docker_image] at hw
    | true =>
      cases eo <;> simp [build_docker_image, hff] at hw <;> rw [← hw] <;> exact hdf

theorem pipelineResult_github_io (ca : Bool) (co : Nat → AttemptOutcome)
    (cl : CloneOutcome) (eo : EngineOutcome) (u n d : String) (fs0 : Option Ws)
    (files w : Ws)
    (hcl : clone_repository cl = .ok files)
    (hdf : files.lookup "Dockerfile" = none)
    (hgio : strContains (strLower u) "github.io" = true)
    (hw : (pipelineResult ca co cl eo u n d fs0).2.2.engineWs = some w) :
    w.lookup "Dockerfile" = some (DOCKERFILE_TEMPLATES ProjectType.static) := by
  unfold pipelineResult at hw
  rcases h1 : clean_build_dir co d fs0 with ⟨fs1, e1⟩
  rw [h1] at hw
  cases e1 with
  | some e => simp at hw
  | none =>
    rw [hcl] at hw
    have hff : hasFile files "Dockerfile" = false := hasFile_false_of_lookup _ _ hdf
    simp only [hff, hgio, Bool.not_false, Bool.and_self, if_pos] at hw
    rw [assembleBuild_trace] at hw
    have hw1 : hasFile (writeFile files "Dockerfile" (DOCKERFILE_TEMPLATES ProjectType.static))
        "Dockerfile" = true :=
      hasFile_of_lookup _ _ _ (lookup_writeFile files "Dockerfile" _)
    cases ca with
    | false => simp [build_docker_image] at hw
    | true =>
      cases eo <;> simp [build_docker_image, hw1] at hw <;> rw [← hw] <;>
        exact lookup_writeFile files "Dockerfile" _

theorem pipelineResult_success (ca : Bool) (co : Nat → AttemptOutcome)
    (cl : CloneOutcome) (eo : EngineOutcome) (u n d : String) (fs0 : Option Ws)
    (r : Response) (h : (pipelineResult ca co cl eo u n d fs0).1 = .ok r) :
    ∃ events tag, eo = .ok events ∧
      r = .success tag (lastN 20 (streamLines events))
        ("docker run -p 8080:80 " ++ tag) := by
  unfold pipelineResult at h
  rcases h1 : clean_build_dir co d fs0 with ⟨fs1, e1⟩
  rw [h1] at h
  cases e1 with
  | some e => simp at h
  | none =>
    rcases h2 : clone_repository cl with e | files <;> rw [h2] at h
    · simp at h
    · obtain ⟨tagLogs, hb, hr⟩ := assembleBuild_success _ _ h
      cases ca with
      | false => simp [build_docker_image] at hb
      | true =>
        cases eo with
        | ok events =>
          simp only [build_docker_image, Bool.true_eq_false, if_false] at hb
          refine ⟨events, "builder/" ++ charReplace n '.' '-' ++ ":latest", rfl, ?_⟩
          rw [hr]
          obtain ⟨h3, h4⟩ := Prod.mk.injEq .. ▸ (Except.ok.injEq .. ▸ hb)
          rw [← h3, ← h4]
        | buildError msg => simp [build_docker_image] at hb
        | apiError msg => simp [build_docker_image] at hb
        | raisesOther msg => simp [build_docker_image] at hb

theorem clean_build_dir_allMkFail (oracle : Nat → AttemptOutcome) (d : String)
    (fs : Option Ws) (hm : ∀ i, (oracle i).mkOk = false) :
    (clean_build_dir oracle d fs).2 = some (.runtimeError (cleanFailMsg d)) := by
  unfold clean_build_dir
  have hall : ∀ o ∈ [oracle 0, oracle 1, oracle 2], o.mkOk = false := by
    intro o ho
    simp at ho
    rcases ho with h | h | h <;> rw [h] <;> exact hm _
  have := cleanAttempts_allMkFail [oracle 0, oracle 1, oracle 2] fs hall
  rcases hA : cleanAttempts [oracle 0, oracle 1, oracle 2] fs with ⟨fs1, b⟩
  rw [hA] at this
  simp at this
  subst this
  rfl

theorem respOf_error (e : PyErr) : respOf (.error e) = .failure 500 (pyStr e) := rfl

theorem respOf_ok (r : Response) : respOf (.ok r) = r := rfl

theorem pac_cleanCalled (env : Env) (u n d : String) (fs0 : Option Ws) :
    (pipelineAndCleanup env u n d fs0).trace.cleanCalled
      = (pipelineResult env.clientAvailable env.cleanOutcome env.cloneOutcome
          env.engineOutcome u n d fs0).2.2.cleanCalled := rfl

theorem pac_cloneCalled (env : Env) (u n d : String) (fs0 : Option Ws) :
    (pipelineAndCleanup env u n d fs0).trace.cloneCalled
      = (pipelineResult env.clientAvailable env.cleanOutcome env.cloneOutcome
          env.engineOutcome u n d fs0).2.2.cloneCalled := rfl

theorem pac_buildFnCalled (env : Env) (u n d : String) (fs0 : Option Ws) :
    (pipelineAndCleanup env u n d fs0).trace.buildFnCalled
      = (pipelineResult env.clientAvailable env.cleanOutcome env.cloneOutcome
          env.engineOutcome u n d fs0).2.2.buildFnCalled := rfl

theorem pac_engineCalled (env : Env) (u n d : String) (fs0 : Option Ws) :
    (pipelineAndCleanup env u n d fs0).trace.engineCalled
      = (pipelineResult env.clientAvailable env.cleanOutcome env.cloneOutcome
          env.engineOutcome u n d fs0).2.2.engineCalled := rfl

theorem pac_engineWs (env : Env) (u n d : String) (fs0 : Option Ws) :
    (pipelineAndCleanup env u n d fs0).trace.engineWs
      = (pipelineResult env.clientAvailable env.cleanOutcome env.cloneOutcome
          env.engineOutcome u n d fs0).2.2.engineWs := rfl

theorem pac_finallyRuns (env : Env) (u n d : String) (fs0 : Option Ws) :
    (pipelineAndCleanup env u n d fs0).trace.finallyRuns
      = (pipelineResult env.clientAvailable env.cleanOutcome env.cloneOutcome
          env.engineOutcome u n d fs0).2.2.finallyRuns + 1 := rfl

theorem build_image_teardown_free (env : Env) (b : Bool) (req : Request) (fs0 : Option Ws) :
    (build_image { env with teardownRmOk := b } req fs0).result
      = (build_image env req fs0).result := by
  unfold build_image
  cases hj : req.isJson
  · simp
  · simp only [Bool.true_eq_false, if_false]
    rcases hg : dictGet req.body "repo_url" (JVal.jStr "") with e | v
    · simp
    · rcases hs : pyStrip v with e | repo_url
      · simp [hs]
      · simp only [hs]
        by_cases hu : repo_url = ""
        · simp [hu]
        · simp only [hu, if_false]
          by_cases hv : (urlparse repo_url).scheme = "" ∨ (urlparse repo_url).netloc = ""
          · simp [hv]
          · simp only [hv, if_false]
            rfl

/-- C1 (amended): when the engine client is unavailable, a /build request
never reaches the engine build call, and whenever the pipeline reaches the
image-build step the response is the 500 engine-unavailable error; the
workspace-prepare and clone steps are, however, still attempted first (see
the counterexample). -/
theorem c1_engine_unavailable (env : Env) (req : Request) (fs0 : Option Ws)
    (h : env.clientAvailable = false) :
    (build_image env req fs0).trace.engineCalled = false ∧
    ((build_image env req fs0).trace.buildFnCalled = true →
      (build_image env req fs0).result
        = .resp (.failure 500 "Docker service unavailable")) := by
  rcases build_image_cases env req fs0 with hc | ⟨e, hc⟩ | hc | hc | ⟨v, u, hg, hs, hc⟩ <;>
    rw [hc] <;> try exact ⟨rfl, fun hb => by simp [emptyTrace] at hb⟩
  rw [pac_engineCalled, pac_buildFnCalled, pac_result, h]
  refine ⟨(pipelineResult_engine_unavailable _ _ _ _ _ _ _).1, fun hb => ?_⟩
  rw [(pipelineResult_engine_unavailable _ _ _ _ _ _ _).2 hb]
  rfl

/-- C1 counterexample: with the engine client unavailable and a valid
request, the clone step IS attempted (and the workspace prepared), contrary
to the claim that no clone and no filesystem work happens; the response is
still the 500 engine-unavailable error. -/
theorem c1_clone_attempted_counterexample :
    envC1.clientAvailable = false ∧
    (build_image envC1 reqStd none).trace.cloneCalled = true ∧
    (build_image envC1 reqStd none).trace.cleanCalled = true ∧
    (build_image envC1 reqStd none).result
      = .resp (.failure 500 "Docker service unavailable") := by
  refine ⟨rfl, ?_, ?_, ?_⟩ <;> decide

/-- C1 witness: the amended claim applied to the concrete unavailable-engine
world. -/
theorem c1_engine_unavailable_witness :
    (build_image envC1 reqStd none).trace.engineCalled = false ∧
    ((build_image envC1 reqStd none).trace.buildFnCalled = true →
      (build_image envC1 reqStd none).result
        = .resp (.failure 500 "Docker service unavailable")) :=
  c1_engine_unavailable envC1 reqStd none rfl

/-- C2 (amended): an exception from the engine call that the code does not
classify is caught at the pipeline boundary and returned as a 500 whose
error field is the message of that exception, so internal detail DOES reach
the caller; the generic Internal-server-error body is produced only by the
outer handler, which covers failures outside the pipeline block. -/
theorem c2_pipeline_error_passthrough (env : Env) (req : Request) (fs0 : Option Ws)
    (msg : String) (h : env.engineOutcome = .raisesOther msg)
    (hec : (build_image env req fs0).trace.engineCalled = true) :
    (build_image env req fs0).result = .resp (.failure 500 msg) := by
  rcases build_image_cases env req fs0 with hc | ⟨e, hc⟩ | hc | hc | ⟨v, u, hg, hs, hc⟩ <;>
    rw [hc] at hec ⊢ <;> try simp [emptyTrace] at hec
  rw [pac_engineCalled, h] at hec
  rw [pac_result, h, pipelineResult_engine_raises _ _ _ _ _ _ _ _ hec]
  rfl

/-- C2 counterexample: a run in which the engine raises an unclassified
exception carrying internal detail; the caller receives that detail verbatim
in the 500 response, not the generic Internal-server-error message. -/
theorem c2_detail_leak_counterexample :
    (build_image envC2 reqStd none).result
      = .resp (.failure 500 "Traceback: connection reset on /var/run/docker.sock") ∧
    "Traceback: connection reset on /var/run/docker.sock" ≠ "Internal server error" := by
  refine ⟨?_, ?_⟩ <;> decide

/-- C2 witness: the amended claim applied to the concrete leaking world. -/
theorem c2_pipeline_error_passthrough_witness :
    (build_image envC2 reqStd none).result
      = .resp (.failure 500 "Traceback: connection reset on /var/run/docker.sock") :=
  c2_pipeline_error_passthrough envC2 reqStd none _ rfl (by decide)

/-- C3 (amended): for every request that reaches workspace prepare, the
cleanup block of the try-finally runs exactly once, and when its rmtree
actually removes the tree the directory is gone at the end of the request;
a teardown failure never changes the response (the response is independent
of the teardown outcome).  When the best-effort teardown rmtree silently
fails, the directory can survive the request (see the counterexample). -/
theorem c3_teardown_guarantees (env : Env) (req : Request) (fs0 : Option Ws) (b : Bool) :
    ((build_image env req fs0).trace.cleanCalled = true →
      (build_image env req fs0).trace.finallyRuns = 1 ∧
      (env.teardownRmOk = true → (build_image env req fs0).fs = none)) ∧
    (build_image { env with teardownRmOk := b } req fs0).result
      = (build_image env req fs0).result := by
  refine ⟨?_, build_image_teardown_free env b req fs0⟩
  rcases build_image_cases env req fs0 with hc | ⟨e, hc⟩ | hc | hc | ⟨v, u, hg, hs, hc⟩ <;>
    rw [hc] <;> try exact fun h => by simp [emptyTrace] at h
  intro _
  constructor
  · rw [pac_finallyRuns, pipelineResult_finallyRuns]
  · intro ht
    rw [pac_fs, ht, teardownStep_rmOk]

/-- C3 counterexample: a fully successful build whose final cleanup rmtree
silently fails; the request completes with the success response, yet the
workspace directory still exists on disk, contrary to the claim that it no
longer exists when the request completes. -/
theorem c3_dir_survives_counterexample :
    (build_image envC3 reqStd none).fs ≠ none ∧
    (build_image envC3 reqStd none).result
      = .resp (.success "builder/repo:latest"
          ["Step 1/2 : FROM nginx", "Successfully built abc"]
          "docker run -p 8080:80 builder/repo:latest") := by
  refine ⟨?_, ?_⟩ <;> decide

/-- C3 witness: the amended claim applied to a concrete successful build
with working teardown. -/
theorem c3_teardown_guarantees_witness :
    (build_image envC8 reqStd none).trace.finallyRuns = 1 ∧
    (build_image envC8 reqStd none).fs = none :=
  ⟨((c3_teardown_guarantees envC8 reqStd none true).1 (by decide)).1,
   ((c3_teardown_guarantees envC8 reqStd none true).1 (by decide)).2 rfl⟩

/-- C4: when the cloned repository itself provides a Dockerfile, neither the
github.io special case nor the generic recipe generation overwrites it: the
workspace contents handed to the engine build still map Dockerfile to the
repository-provided content, for every project type and URL. -/
theorem c4_dockerfile_preserved (env : Env) (req : Request) (fs0 : Option Ws)
    (files w : Ws) (c : String)
    (hcl : env.cloneOutcome = .ok files)
    (hdf : files.lookup "Dockerfile" = some c)
    (hw : (build_image env req fs0).trace.engineWs = some w) :
    w.lookup "Dockerfile" = some c := by
  rcases build_image_cases env req fs0 with hc | ⟨e, hc⟩ | hc | hc | ⟨v, u, hg, hs, hc⟩ <;>
    rw [hc] at hw <;> try simp [emptyTrace] at hw
  rw [pac_engineWs] at hw
  exact pipelineResult_dockerfile_preserved _ _ _ _ _ _ _ _ _ _ _
    (by rw [hcl]; rfl) hdf hw

/-- C4 witness: the claim applied to a concrete repository shipping its own
Dockerfile next to a node manifest. -/
theorem c4_dockerfile_preserved_witness :
    ([("Dockerfile", "FROM scratch"), ("package.json", "x")] : Ws).lookup "Dockerfile"
      = some "FROM scratch" ∧
    ∀ w, (build_image envC4 reqStd none).trace.engineWs = some w →
      w.lookup "Dockerfile" = some "FROM scratch" :=
  ⟨by decide, fun w hw => c4_dockerfile_preserved envC4 reqStd none
    [("Dockerfile", "FROM scratch"), ("package.json", "x")] w "FROM scratch"
    rfl (by decide) hw⟩

theorem clean_build_dir_isSome (oracle : Nat → AttemptOutcome) (d : String)
    (fs : Option Ws) (h : (clean_build_dir oracle d fs).2 = none) :
    ((clean_build_dir oracle d fs).1).isSome = true := by
  unfold clean_build_dir at h ⊢
  rcases hA : cleanAttempts [oracle 0, oracle 1, oracle 2] fs with ⟨fs1, b⟩
  cases b with
  | true => exact cleanAttempts_isSome _ _ _ hA
  | false =>
    rw [hA] at h
    simp at h

theorem clean_build_dir_empty (oracle : Nat → AttemptOutcome) (d : String)
    (fs : Option Ws) (hr : ∀ i, (oracle i).rmOk = true)
    (h : (clean_build_dir oracle d fs).2 = none) :
    (clean_build_dir oracle d fs).1 = some [] := by
  unfold clean_build_dir at h ⊢
  have hall : ∀ o ∈ [oracle 0, oracle 1, oracle 2], o.rmOk = true := by
    intro o ho
    simp at ho
    rcases ho with h2 | h2 | h2 <;> rw [h2] <;> exact hr _
  rcases hA : cleanAttempts [oracle 0, oracle 1, oracle 2] fs with ⟨fs1, b⟩
  cases b with
  | true => exact cleanAttempts_rmOk _ _ _ hall hA
  | false =>
    rw [hA] at h
    simp at h

/-- C5 (amended): workspace prepare either returns normally with the
directory existing on return (and empty whenever the rmtree removals
actually succeed; a silently failed removal can leave prior contents, see
the counterexample), or, when all 3 attempts fail, raises the fatal
workspace-prepare RuntimeError naming the directory, in which case the
build aborts with a 500 and the fetch step is never invoked. -/
theorem c5_prepare_contract (oracle : Nat → AttemptOutcome) (d : String)
    (fs : Option Ws) (env : Env) (req : Request) (fs0 : Option Ws) :
    ((clean_build_dir oracle d fs).2 = none →
      ((clean_build_dir oracle d fs).1).isSome = true) ∧
    ((∀ i, (oracle i).rmOk = true) → (clean_build_dir oracle d fs).2 = none →
      (clean_build_dir oracle d fs).1 = some []) ∧
    ((∀ i, (oracle i).mkOk = false) →
      (clean_build_dir oracle d fs).2 = some (.runtimeError (cleanFailMsg d))) ∧
    ((∀ i, (env.cleanOutcome i).mkOk = false) →
      (build_image env req fs0).trace.cloneCalled = false ∧
      (build_image env req fs0).trace.engineCalled = false ∧
      (∀ t l cmd, (build_image env req fs0).result ≠ .resp (.success t l cmd)) ∧
      ((build_image env req fs0).trace.cleanCalled = true →
        ∃ m, (build_image env req fs0).result = .resp (.failure 500 m))) := by
  refine ⟨clean_build_dir_isSome oracle d fs, clean_build_dir_empty oracle d fs,
    clean_build_dir_allMkFail oracle d fs, ?_⟩
  intro hm
  rcases build_image_cases env req fs0 with hc | ⟨e, hc⟩ | hc | hc | ⟨v, u, hg, hs, hc⟩ <;>
    rw [hc] <;>
    try exact ⟨rfl, rfl, fun t l cmd => by simp, fun h => by simp [emptyTrace] at h⟩
  have hcf := clean_build_dir_allMkFail env.cleanOutcome ("/tmp/builds/" ++ nameOf u) fs0 hm
  obtain ⟨he, hclone, hengine⟩ := pipelineResult_clean_fail env.clientAvailable
    env.cleanOutcome env.cloneOutcome env.engineOutcome u (nameOf u)
    ("/tmp/builds/" ++ nameOf u) fs0 _ hcf
  refine ⟨?_, ?_, ?_, ?_⟩
  · rw [pac_cloneCalled]
    exact hclone
  · rw [pac_engineCalled]
    exact hengine
  · intro t l cmd
    rw [pac_result, he]
    simp [respOf]
  · intro _
    refine ⟨pyStr (.runtimeError (cleanFailMsg ("/tmp/builds/" ++ nameOf u))), ?_⟩
    rw [pac_result, he]
    rfl

/-- C5 counterexample: when the rmtree of the first attempt silently fails
(ignore_errors swallows the error) but the mkdir succeeds, prepare returns
normally with the stale file still present, contrary to the claim that the
directory is empty on every normal return. -/
theorem c5_nonempty_counterexample :
    clean_build_dir oracleRmFail "/tmp/builds/repo" (some [("stale", "x")])
      = (some [("stale", "x")], none) ∧
    some [("stale", "x")] ≠ some ([] : Ws) := by
  refine ⟨?_, ?_⟩ <;> decide

/-- C5 witness: the amended claim applied to concrete oracles: an
all-removals-succeed run returns an empty directory, and an all-mkdir-fail
run raises the prepare error and never reaches the clone step. -/
theorem c5_prepare_contract_witness :
    (clean_build_dir oracleOk "/tmp/builds/repo" (some [("stale", "x")])).1 = some [] ∧
    (clean_build_dir oracleMkFail "/tmp/builds/repo" none).2
      = some (.runtimeError (cleanFailMsg "/tmp/builds/repo")) ∧
    (build_image envC5 reqStd none).trace.cloneCalled = false :=
  ⟨(c5_prepare_contract oracleOk "/tmp/builds/repo" (some [("stale", "x")])
      envC5 reqStd none).2.1 (fun _ => rfl) (by decide),
   (c5_prepare_contract oracleMkFail "/tmp/builds/repo" none
      envC5 reqStd none).2.2.1 (fun _ => rfl),
   ((c5_prepare_contract oracleMkFail "/tmp/builds/repo" none
      envC5 reqStd none).2.2.2 (fun _ => rfl)).1⟩

theorem clone_repository_fail_classify (stderr : String) :
    clone_repository (.fail stderr)
      = if strContains (pyStripStr stderr) "Repository not found" then
          .error (.valueError "Repository not found or private (needs access token)")
        else if strContains (pyStripStr stderr) "could not read Username" then
          .error (.valueError "Authentication failed - use HTTPS with token")
        else .error (.runtimeError ("Git clone failed: " ++ pyStripStr stderr)) := rfl

/-- C6: a nonzero clone exit is classified on the stripped stderr text: the
not-found marker yields the repository-not-found message, else the
missing-credential prompt yields the authentication message, else the
generic clone failure carrying the raw diagnostic; in each case the /build
response is a 500 carrying exactly that message. -/
theorem c6_clone_classification (env : Env) (req : Request) (fs0 : Option Ws)
    (stderr : String) (hcl : env.cloneOutcome = .fail stderr)
    (hcc : (build_image env req fs0).trace.cloneCalled = true) :
    (strContains (pyStripStr stderr) "Repository not found" = true →
      (build_image env req fs0).result
        = .resp (.failure 500 "Repository not found or private (needs access token)")) ∧
    (strContains (pyStripStr stderr) "Repository not found" = false →
      strContains (pyStripStr stderr) "could not read Username" = true →
      (build_image env req fs0).result
        = .resp (.failure 500 "Authentication failed - use HTTPS with token")) ∧
    (strContains (pyStripStr stderr) "Repository not found" = false →
      strContains (pyStripStr stderr) "could not read Username" = false →
      (build_image env req fs0).result
        = .resp (.failure 500 ("Git clone failed: " ++ pyStripStr stderr))) := by
  rcases build_image_cases env req fs0 with hc | ⟨e, hc⟩ | hc | hc | ⟨v, u, hg, hs, hc⟩ <;>
    rw [hc] at hcc ⊢ <;> try simp [emptyTrace] at hcc
  rw [pac_cloneCalled] at hcc
  have hclean := pipelineResult_cloneCalled_clean _ _ _ _ _ _ _ _ hcc
  refine ⟨fun h1 => ?_, fun h1 h2 => ?_, fun h1 h2 => ?_⟩
  · have hcr : clone_repository env.cloneOutcome
        = .error (.valueError "Repository not found or private (needs access token)") := by
      rw [hcl, clone_repository_fail_classify, h1]
      simp
    rw [pac_result, pipelineResult_clone_error _ _ _ _ _ _ _ _ _ hclean hcr]
    rfl
  · have hcr : clone_repository env.cloneOutcome
        = .error (.valueError "Authentication failed - use HTTPS with token") := by
      rw [hcl, clone_repository_fail_classify, h1, h2]
      simp
    rw [pac_result, pipelineResult_clone_error _ _ _ _ _ _ _ _ _ hclean hcr]
    rfl
  · have hcr : clone_repository env.cloneOutcome
        = .error (.runtimeError ("Git clone failed: " ++ pyStripStr stderr)) := by
      rw [hcl, clone_repository_fail_classify, h1, h2]
      simp
    rw [pac_result, pipelineResult_clone_error _ _ _ _ _ _ _ _ _ hclean hcr]
    rfl

/-- C6 witness: the classification applied to a concrete stderr containing
the not-found marker. -/
theorem c6_clone_classification_witness :
    strContains (pyStripStr "remote: Repository not found.\nfatal: could not read from remote\n")
      "Repository not found" = true ∧
    (build_image envC6 reqStd none).result
      = .resp (.failure 500 "Repository not found or private (needs access token)") :=
  ⟨by decide,
   (c6_clone_classification envC6 reqStd none _ rfl (by decide)).1 (by decide)⟩

/-- C7: a request whose repo_url is a string containing (after stripping and
lower-casing) the github.io marker, and whose cloned tree has no Dockerfile,
hands the engine a workspace whose Dockerfile is exactly the static
template, regardless of the other files in the tree (so even when generic
detection would have chosen node or default). -/
theorem c7_static_override (env : Env) (fs0 : Option Ws)
    (fields : List (String × JVal)) (s : String) (files w : Ws)
    (hreq : fields.lookup "repo_url" = some (.jStr s))
    (hcl : env.cloneOutcome = .ok files)
    (hdf : files.lookup "Dockerfile" = none)
    (hgio : strContains (strLower (pyStripStr s)) "github.io" = true)
    (hw : (build_image env ⟨true, .jObj fields⟩ fs0).trace.engineWs = some w) :
    w.lookup "Dockerfile" = some (DOCKERFILE_TEMPLATES ProjectType.static) := by
  rcases build_image_cases env ⟨true, .jObj fields⟩ fs0 with
    hc | ⟨e, hc⟩ | hc | hc | ⟨v, u, hg, hs, hc⟩ <;>
    rw [hc] at hw <;> try simp [emptyTrace] at hw
  have hv : v = .jStr s := by
    simp only [dictGet, hreq, Option.getD_some] at hg
    exact (Except.ok.injEq .. ▸ hg).symm
  subst hv
  have hu : u = pyStripStr s := by
    unfold pyStrip at hs
    simp at hs
    exact hs.symm
  subst hu
  rw [pac_engineWs] at hw
  exact pipelineResult_github_io _ _ _ _ _ _ _ _ _ _
    (by rw [hcl]; rfl) hdf hgio hw

/-- C7 witness: the override applied to a concrete github.io URL over a tree
holding only a node manifest (generic detection alone would say node). -/
theorem c7_static_override_witness :
    detect_project_type [("package.json", "x")] = ProjectType.node ∧
    ∀ w, (build_image envC7 reqPages none).trace.engineWs = some w →
      w.lookup "Dockerfile" = some (DOCKERFILE_TEMPLATES ProjectType.static) :=
  ⟨by decide, fun w hw => c7_static_override envC7 none
    [("repo_url", JVal.jStr "https://github.com/user/my-site.github.io")]
    "https://github.com/user/my-site.github.io"
    [("package.json", "x")] w rfl rfl rfl (by decide) hw⟩

/-- C8: every successful /build response carries a log list of length at
most 20 with no empty entries, obtained from the stream events of the
engine output by trimming, dropping empties and keeping the final 20 lines
in order. -/
theorem c8_log_tail_bounded (env : Env) (req : Request) (fs0 : Option Ws)
    (tag : String) (logs : List String) (cmd : String) (fsF : Option Ws) (tr : Trace)
    (h : build_image env req fs0 = ⟨.resp (.success tag logs cmd), fsF, tr⟩) :
    logs.length ≤ 20 ∧ (∀ x ∈ logs, x ≠ "") ∧
    (∃ events, env.engineOutcome = .ok events ∧
      logs = lastN 20 (streamLines events)) := by
  rcases build_image_cases env req fs0 with hc | ⟨e, hc⟩ | hc | hc | ⟨v, u, hg, hs, hc⟩ <;>
    rw [hc] at h <;> try simp at h
  have hres := congrArg BuildCall.result h
  rw [pac_result] at hres
  simp only [BuildCall.result] at hres
  rcases hX : (pipelineResult env.clientAvailable env.cleanOutcome env.cloneOutcome
      env.engineOutcome u (nameOf u) ("/tmp/builds/" ++ nameOf u) fs0).1 with e | r
  · rw [hX] at hres
    simp [respOf] at hres
  · rw [hX] at hres
    rw [respOf_ok] at hres
    simp at hres
    obtain ⟨events, tg, heo, hr⟩ := pipelineResult_success _ _ _ _ _ _ _ _ _ hX
    rw [hr] at hres
    obtain ⟨htag, hlogs, _⟩ := Response.success.injEq .. ▸ hres
    refine ⟨?_, ?_, events, heo, hlogs.symm⟩
    · rw [← hlogs]
      exact lastN_length_le _ _
    · intro x hx
      rw [← hlogs] at hx
      exact mem_streamLines_ne_empty x events (mem_of_mem_lastN x _ _ hx)

/-- C8 witness: the bound applied to a concrete successful build whose
engine stream holds two text lines, a non-stream event and a blank line. -/
theorem c8_log_tail_bounded_witness :
    (["Step 1/2 : FROM nginx", "Successfully built abc"] : List String).length ≤ 20 ∧
    (∀ x ∈ (["Step 1/2 : FROM nginx", "Successfully built abc"] : List String), x ≠ "") ∧
    (∃ events, envC8.engineOutcome = .ok events ∧
      ["Step 1/2 : FROM nginx", "Successfully built abc"]
        = lastN 20 (streamLines events)) :=
  c8_log_tail_bounded envC8 reqStd none "builder/repo:latest"
    ["Step 1/2 : FROM nginx", "Successfully built abc"]
    "docker run -p 8080:80 builder/repo:latest"
    none ⟨true, true, true, true,
      some [("Dockerfile", DOCKERFILE_TEMPLATES ProjectType.static), ("index.html", "x")], 1⟩
    (by decide)

/-- C9: a non-JSON body, a missing or empty (after stripping) repo_url in a
JSON object body, and a URL whose parse lacks a scheme or a host each
produce the corresponding 400 response, with the directory untouched and no
pipeline step invoked (the trace is empty: no prepare, no clone, no build). -/
theorem c9_invalid_request_400 (env : Env) (req : Request) (fs0 : Option Ws) :
    (req.isJson = false →
      build_image env req fs0
        = ⟨.resp (.failure 400 "Request must be JSON"), fs0, emptyTrace⟩) ∧
    (∀ fields s, req.isJson = true → req.body = .jObj fields →
      (fields.lookup "repo_url").getD (.jStr "") = .jStr s → pyStripStr s = "" →
      build_image env req fs0
        = ⟨.resp (.failure 400 "Missing repo_url"), fs0, emptyTrace⟩) ∧
    (∀ fields s, req.isJson = true → req.body = .jObj fields →
      (fields.lookup "repo_url").getD (.jStr "") = .jStr s → pyStripStr s ≠ "" →
      ((urlparse (pyStripStr s)).scheme = "" ∨ (urlparse (pyStripStr s)).netloc = "") →
      build_image env req fs0
        = ⟨.resp (.failure 400 "Invalid repository URL"), fs0, emptyTrace⟩) := by
  refine ⟨fun hj => ?_, fun fields s hj hb hget hstrip => ?_, fun fields s hj hb hget hstrip hv => ?_⟩
  · unfold build_image
    rw [hj]
    simp
  · unfold build_image
    rw [hj, hb]
    simp only [dictGet, hget, pyStrip, hstrip, Bool.true_eq_false, if_false]
    simp
  · unfold build_image
    rw [hj, hb]
    simp only [dictGet, hget, pyStrip, Bool.true_eq_false, if_false]
    rw [if_neg hstrip, if_pos hv]

/-- C9 witness: the three 400 branches applied to concrete requests: a
non-JSON body, a whitespace-only repo_url, and a URL with no scheme. -/
theorem c9_invalid_request_400_witness :
    build_image envC9 ⟨false, .jNull⟩ none
      = ⟨.resp (.failure 400 "Request must be JSON"), none, emptyTrace⟩ ∧
    build_image envC9 ⟨true, .jObj [("repo_url", .jStr "   ")]⟩ none
      = ⟨.resp (.failure 400 "Missing repo_url"), none, emptyTrace⟩ ∧
    build_image envC9 ⟨true, .jObj [("repo_url", .jStr "not-a-url")]⟩ none
      = ⟨.resp (.failure 400 "Invalid repository URL"), none, emptyTrace⟩ :=
  ⟨(c9_invalid_request_400 envC9 ⟨false, .jNull⟩ none).1 rfl,
   (c9_invalid_request_400 envC9 ⟨true, .jObj [("repo_url", .jStr "   ")]⟩ none).2.1
     [("repo_url", .jStr "   ")] "   " rfl rfl rfl (by decide),
   (c9_invalid_request_400 envC9 ⟨true, .jObj [("repo_url", .jStr "not-a-url")]⟩ none).2.2
     [("repo_url", .jStr "not-a-url")] "not-a-url" rfl rfl rfl (by decide) (by decide)⟩

/-- C10 (amended): a JSON object body whose repo_url value is present but
not a string makes the strip call raise an AttributeError BEFORE the
try block of the endpoint begins, so the exception escapes the handler uncaught
(the framework then serves its own default 500 error page); the response is
NOT the JSON body with the generic Internal-server-error message, and the
fetch and build steps are never invoked. -/
theorem c10_nonstring_url_uncaught (env : Env) (fs0 : Option Ws)
    (fields : List (String × JVal)) (v : JVal)
    (hget : fields.lookup "repo_url" = some v)
    (hnv : v.isStr = false) :
    build_image env ⟨true, .jObj fields⟩ fs0
      = ⟨.uncaught (.attributeError "object has no attribute strip"), fs0, emptyTrace⟩ ∧
    (build_image env ⟨true, .jObj fields⟩ fs0).result
      ≠ .resp (.failure 500 "Internal server error") := by
  have h1 : build_image env ⟨true, .jObj fields⟩ fs0
      = ⟨.uncaught (.attributeError "object has no attribute strip"), fs0, emptyTrace⟩ := by
    unfold build_image
    simp only [dictGet, hget, Option.getD_some, Bool.true_eq_false, if_false]
    cases v <;> simp_all [pyStrip, JVal.isStr]
  exact ⟨h1, by rw [h1]; simp⟩

/-- C10 counterexample: with repo_url set to the number 5, the endpoint
result is an escaped AttributeError, not a returned JSON response, so in
particular it is not the 500 response with body error Internal server
error that the claim describes. -/
theorem c10_counterexample :
    (build_image envC9 reqNumUrl none).result
      = .uncaught (.attributeError "object has no attribute strip") ∧
    (build_image envC9 reqNumUrl none).result
      ≠ .resp (.failure 500 "Internal server error") ∧
    (build_image envC9 reqNumUrl none).trace = emptyTrace := by
  refine ⟨?_, ?_, ?_⟩ <;> decide

/-- C10 witness: the amended claim applied to the concrete number-valued
repo_url request. -/
theorem c10_nonstring_url_uncaught_witness :
    build_image envC9 ⟨true, .jObj [("repo_url", .jNum 5)]⟩ none
      = ⟨.uncaught (.attributeError "object has no attribute strip"), none, emptyTrace⟩ ∧
    (build_image envC9 ⟨true, .jObj [("repo_url", .jNum 5)]⟩ none).result
      ≠ .resp (.failure 500 "Internal server error") :=
  c10_nonstring_url_uncaught envC9 none [("repo_url", .jNum 5)] (.jNum 5) rfl rfl
